import Mathlib

/-!
Verification of the analytics core of the PublicHealth agent
(`data_pipeline.py`, `forecast.py`, `nlp_module.py`) against its design
document.  Python numbers are modelled exactly: `int` as `Int`, `float`
arithmetic as `ℚ` (or `ℝ` where a logarithm is involved), `math.inf` as the
top element of `EReal`.  Python exceptions are modelled with `Except`:
functions that can raise return `Except PyError α`.
-/

/-- Exceptions relevant to the pipeline.  `zeroDivisionError` is Python's
built-in `ZeroDivisionError`.  The remaining constructors are the error
taxonomy named by the design document (`EmptyTimelineError`,
`EmptyInputError`, `InvalidWindowError`, `InvalidHorizonError`); they are
included so that statements about them can be expressed, but the source
never raises any of them — no such exception class is defined anywhere in
the repository.  `externalError` stands for whatever an external library
call may raise. -/
inductive PyError where
  | zeroDivisionError
  | emptyTimelineError
  | emptyInputError
  | invalidWindowError
  | invalidHorizonError
  | externalError (msg : String)
deriving DecidableEq

/-- Result of `datetime.strptime(label, "%m/%d/%y")` on a well-formed
`MM/DD/YY` date label, as used in `compute_daily_new_cases`. -/
structure Date where
  month : ℕ
  day : ℕ
  year : ℕ
deriving DecidableEq

/-- Chronological (`datetime`) order on parsed dates: lexicographic on
(year, month, day). -/
def dateLe (a b : Date) : Prop :=
  a.year < b.year ∨
    (a.year = b.year ∧ (a.month < b.month ∨ (a.month = b.month ∧ a.day ≤ b.day)))

/-- Strict chronological order on parsed dates. -/
def dateLt (a b : Date) : Prop :=
  a.year < b.year ∨
    (a.year = b.year ∧ (a.month < b.month ∨ (a.month = b.month ∧ a.day < b.day)))

instance : DecidableRel dateLe := fun a b => by
  unfold dateLe; exact inferInstance

instance : IsTotal Date dateLe :=
  ⟨by intro a b; unfold dateLe; omega⟩

instance : IsTrans Date dateLe :=
  ⟨by intro a b c; unfold dateLe; omega⟩

/-- A Python dict with `Date` keys and integer cumulative counts, as a key
value association list (`cases_timeline` in the source).  Dict semantics
are recovered by requiring the key list to be duplicate-free. -/
abbrev RawTimeline := List (Date × Int)

/-- Dict access `cases_timeline[date]` (in the source, only performed for
keys of the dict, so the default is never consulted). -/
def dictLookup (tl : RawTimeline) (d : Date) : Int :=
  (tl.lookup d).getD 0

/-- The source's `sorted(cases_timeline.keys(), key=lambda d:
datetime.strptime(d, "%m/%d/%y"))`: Python's stable sort of the key list
by parsed date.  `List.insertionSort` is a stable sort, hence pointwise
equal to Python's. -/
def sortedDates (tl : RawTimeline) : List Date :=
  List.insertionSort dateLe (tl.map Prod.fst)

/-- Body of the loop in `compute_daily_new_cases`: walks the sorted dates
carrying `previous_count` (`none` initially), emitting `0` for the first
date and `current - previous` afterwards. -/
def dailyNewGo (tl : RawTimeline) : Option Int → List Date → List (Date × Int)
  | _, [] => []
  | prev, d :: ds =>
    (d, match prev with
        | none => 0
        | some p => dictLookup tl d - p) :: dailyNewGo tl (some (dictLookup tl d)) ds

/-- `compute_daily_new_cases` from `data_pipeline.py`: sorts the dates of a
cumulative timeline chronologically and emits the dict of daily new cases
(first date mapped to `0`, later dates to the difference of consecutive
cumulative counts). -/
def compute_daily_new_cases (tl : RawTimeline) : List (Date × Int) :=
  dailyNewGo tl none (sortedDates tl)

/-- Loop body of `compute_moving_average` in `data_pipeline.py`, iterating
over the indices `range(len(data_list))`.  For `i < window - 1` (an `int`
comparison, so `window` may be any integer) the entry is `None`; otherwise
the slice `data_list[i-window+1:i+1]` is summed and divided by `window`,
raising `ZeroDivisionError` when `window == 0`.  In the reached branch
`i - window + 1 ≥ 0`, so the slice is `drop (i-window+1) (take (i+1) l)`
(empty when the start is past the stop, as in Python). -/
def cmaLoop (data_list : List ℚ) (window : Int) :
    List ℕ → Except PyError (List (Option ℚ))
  | [] => Except.ok []
  | i :: is => do
    let v : Option ℚ ←
      if (i : Int) < window - 1 then
        pure none
      else if window = 0 then
        Except.error PyError.zeroDivisionError
      else
        pure (some ((((data_list.take (i + 1)).drop
          (((i : Int) - window + 1).toNat)).sum) / (window : ℚ)))
    let rest ← cmaLoop data_list window is
    pure (v :: rest)

/-- `compute_moving_average` from `data_pipeline.py`. -/
def compute_moving_average (data_list : List ℚ) (window : Int) :
    Except PyError (List (Option ℚ)) :=
  cmaLoop data_list window (List.range data_list.length)

/-- The design document's description of the moving average: same length
as the input, absent entries for indices `i` with `i < window − 1`, and at
every other index the arithmetic mean of the `window` values ending there. -/
def movingAverageSpec (values : List ℚ) (window : ℕ) : List (Option ℚ) :=
  (List.range values.length).map fun i =>
    if i + 1 < window then none
    else some ((∑ j ∈ Finset.range window, values.getD (i + 1 - window + j) 0)
      / (window : ℚ))

/-- Loop body of `compute_average_growth_rate` in `data_pipeline.py`:
walks consecutive pairs `(prev, curr)` and keeps `(curr - prev) / prev`
whenever `prev > 0`. -/
def growth_rates : List ℚ → List ℚ
  | [] => []
  | [_] => []
  | prev :: curr :: rest =>
    (if 0 < prev then [(curr - prev) / prev] else []) ++ growth_rates (curr :: rest)

/-- `compute_average_growth_rate` from `data_pipeline.py`: the mean of the
retained growth ratios, or `0.0` when none are retained
(`statistics.mean` is exact on rationals). -/
def compute_average_growth_rate (daily_cases : List ℚ) : ℚ :=
  let grs := growth_rates daily_cases
  if grs.length = 0 then 0 else grs.sum / (grs.length : ℚ)

/-- The design document's description of the retained ratios: iterate the
consecutive pairs, skip those whose earlier value is non-positive, and
take `(curr − prev) / prev` of the rest. -/
def retainedRatiosSpec (deltas : List ℚ) : List ℚ :=
  (deltas.zip deltas.tail).filterMap fun p =>
    if 0 < p.1 then some ((p.2 - p.1) / p.1) else none

/-- `compute_doubling_time` from `data_pipeline.py`: `math.log(2) / rate`
for a positive rate, `math.inf` (the top element of `EReal`) otherwise.
Noncomputable only because `Real.log` is: the source value `math.log(2)`
is irrational, so it has no executable model. -/
noncomputable def compute_doubling_time (average_growth_rate : ℝ) : EReal :=
  if 0 < average_growth_rate then
    ((Real.log 2 / average_growth_rate : ℝ) : EReal)
  else
    ⊤

/-- Trend labels used by `generate_narrative_report` in `nlp_module.py`. -/
inductive Trend where
  | decreasing
  | increasing
  | stable
deriving DecidableEq

/-- The trend word interpolated into the report template. -/
def trendWord : Trend → String
  | Trend.decreasing => "decreasing"
  | Trend.increasing => "increasing"
  | Trend.stable => "stable"

/-- The trend-specific closing sentence appended to the report. -/
def trendRemark : Trend → String
  | Trend.increasing =>
    "This increase may require proactive measures to mitigate further spread."
  | Trend.decreasing =>
    "The decreasing trend indicates that current measures might be effective."
  | Trend.stable =>
    "The situation appears to be stable at the moment."

/-- Rounding to the nearest integer with ties to the even integer, as
Python's `format(x, ".0f")` does. -/
def rndHalfEven (q : ℚ) : ℤ :=
  let f : ℤ := q.floor
  let r : ℚ := q - (f : ℚ)
  if r < 1 / 2 then f
  else if 1 / 2 < r then f + 1
  else if f % 2 = 0 then f else f + 1

/-- Python's `f"{q:.0f}"` on a finite value: the half-even rounding,
rendered with a minus sign for a negative value rounding to zero.  (The
float artifact `-0.0` itself is not representable in `ℚ`.) -/
def fmt0f (q : ℚ) : String :=
  let n := rndHalfEven q
  if n = 0 ∧ q < 0 then "-0" else toString n

/-- Python's `f"{x:.0f}"` where `x` may be the NaN produced by taking the
mean of an empty series (modelled as `none`). -/
def fmtOpt0f : Option ℚ → String
  | none => "nan"
  | some q => fmt0f q

/-- Python `<` against a possibly-NaN left operand: every comparison with
NaN is false. -/
def nanLt (a : Option ℚ) (b : ℚ) : Bool :=
  match a with
  | none => false
  | some x => decide (x < b)

/-- Python `>` against a possibly-NaN left operand. -/
def nanGt (a : Option ℚ) (b : ℚ) : Bool :=
  match a with
  | none => false
  | some x => decide (b < x)

/-- The `if/elif/else` trend classification of `generate_narrative_report`,
comparing the forecast mean (`none` when it is NaN) with the historical
mean. -/
def classifyTrend (avg_daily_cases : ℚ) (forecast_avg : Option ℚ) : Trend :=
  if nanLt forecast_avg avg_daily_cases then Trend.decreasing
  else if nanGt forecast_avg avg_daily_cases then Trend.increasing
  else Trend.stable

/-- The f-string template of the report, with the two formatted averages
and the trend word interpolated. -/
def reportBody (avgStr forecastStr trendStr : String) : String :=
  "Based on the historical data, the average daily new cases were approximately "
    ++ avgStr
    ++ ". The forecast for the upcoming period suggests an average of "
    ++ forecastStr
    ++ " daily new cases, indicating a "
    ++ trendStr
    ++ " trend. "

/-- Arithmetic mean `sum(l) / len(l)`, as computed by
`generate_narrative_report` for the historical average and by
`pd.Series.mean` for the forecast average (exact on rationals). -/
def pyMean (l : List ℚ) : ℚ :=
  l.sum / (l.length : ℚ)

/-- `generate_narrative_report` from `nlp_module.py`.  The historical mean
`sum(daily_cases) / len(daily_cases)` raises `ZeroDivisionError` when the
list is empty; the forecast mean `forecast_values.mean()` is pandas' mean,
which is NaN (`none`) on an empty series and raises nothing. -/
def generate_narrative_report (daily_cases : List ℚ) (forecast_values : List ℚ) :
    Except PyError String :=
  if daily_cases.length = 0 then Except.error PyError.zeroDivisionError
  else
    let avg_daily_cases : ℚ := pyMean daily_cases
    let forecast_avg : Option ℚ :=
      if forecast_values.length = 0 then none
      else some (pyMean forecast_values)
    let trend := classifyTrend avg_daily_cases forecast_avg
    Except.ok (reportBody (fmt0f avg_daily_cases) (fmtOpt0f forecast_avg)
        (trendWord trend)
      ++ trendRemark trend)

/-- `forecast_arima` from `forecast.py`, parameterized over the external
`statsmodels` stages it delegates to: `fit` stands for
`ARIMA(series, order=order).fit()` and `fcst` for
`model_fit.forecast(steps=forecast_period)`.  The repository code itself
only chains the two calls and pairs up their results; it performs no
validation of its own. -/
def forecast_arima {Model : Type}
    (fit : List ℚ → Int × Int × Int → Except PyError Model)
    (fcst : Model → Int → Except PyError (List ℚ))
    (daily_cases : List ℚ) (forecast_period : Int) (order : Int × Int × Int) :
    Except PyError (List ℚ × Model) := do
  let model_fit ← fit daily_cases order
  let forecast_result ← fcst model_fit forecast_period
  pure (forecast_result, model_fit)

/-- Occurrence of `sub` as a contiguous substring of `s`, stated by
exhibiting the surrounding text. -/
def strOccurs (s sub : String) : Prop :=
  ∃ p q : String, s = p ++ sub ++ q

/-- Concrete unsorted three-day timeline used to instantiate the
universally quantified theorems on a sample input. -/
def sampleTimeline : RawTimeline :=
  [(⟨3, 11, 21⟩, 15), (⟨3, 10, 21⟩, 10), (⟨3, 12, 21⟩, 22)]

theorem dateLt_of_dateLe_of_ne {a b : Date} (hle : dateLe a b) (hne : a ≠ b) :
    dateLt a b := by
  cases a with
  | mk am ad ay =>
    cases b with
    | mk bm bd _ =>
      unfold dateLe at hle
      unfold dateLt
      simp only [ne_eq, Date.mk.injEq] at hne
      dsimp at hle ⊢
      omega

theorem dailyNewGo_map_fst (tl : RawTimeline) :
    ∀ (ds : List Date) (prev : Option Int),
      (dailyNewGo tl prev ds).map Prod.fst = ds := by
  intro ds
  induction ds with
  | nil => intro prev; rfl
  | cons d rest ih =>
    intro prev
    cases prev <;> simp [dailyNewGo, ih]

theorem dailyNewGo_snd_some (tl : RawTimeline) :
    ∀ (ds : List Date) (p : Int),
      (dailyNewGo tl (some p) ds).map Prod.snd =
        List.zipWith (fun cur pr => cur - pr)
          (ds.map (dictLookup tl)) (p :: ds.map (dictLookup tl)) := by
  intro ds
  induction ds with
  | nil => intro p; rfl
  | cons d rest ih =>
    intro p
    simp [dailyNewGo, ih (dictLookup tl d)]

theorem compute_daily_new_cases_map_fst (tl : RawTimeline) :
    (compute_daily_new_cases tl).map Prod.fst = sortedDates tl :=
  dailyNewGo_map_fst tl (sortedDates tl) none

theorem length_sortedDates (tl : RawTimeline) :
    (sortedDates tl).length = tl.length := by
  unfold sortedDates
  rw [(List.perm_insertionSort dateLe (tl.map Prod.fst)).length_eq,
    List.length_map]

theorem length_compute_daily_new_cases (tl : RawTimeline) :
    (compute_daily_new_cases tl).length = tl.length := by
  have h := congrArg List.length (compute_daily_new_cases_map_fst tl)
  rw [List.length_map] at h
  rw [h, length_sortedDates]

/-- Values of the output of `compute_daily_new_cases`: a leading `0`
followed by the differences of consecutive cumulative counts in date
order. -/
theorem compute_daily_new_cases_map_snd (tl : RawTimeline) (hne : tl ≠ []) :
    (compute_daily_new_cases tl).map Prod.snd =
      0 :: List.zipWith (fun cur pr => cur - pr)
        (((compute_daily_new_cases tl).map fun p => dictLookup tl p.1).tail)
        ((compute_daily_new_cases tl).map fun p => dictLookup tl p.1) := by
  have hsortlen : (sortedDates tl).length = tl.length := length_sortedDates tl
  have hne' : sortedDates tl ≠ [] := by
    intro h
    apply hne
    have := congrArg List.length h
    rw [hsortlen] at this
    exact List.length_eq_zero.mp this
  obtain ⟨d, rest, hds⟩ := List.exists_cons_of_ne_nil hne'
  have hmapfst : (compute_daily_new_cases tl).map (fun p => dictLookup tl p.1) =
      (sortedDates tl).map (dictLookup tl) := by
    have := compute_daily_new_cases_map_fst tl
    calc (compute_daily_new_cases tl).map (fun p => dictLookup tl p.1)
        = ((compute_daily_new_cases tl).map Prod.fst).map (dictLookup tl) := by
          rw [List.map_map]; rfl
      _ = (sortedDates tl).map (dictLookup tl) := by rw [this]
  rw [hmapfst]
  unfold compute_daily_new_cases
  rw [hds]
  simp only [dailyNewGo, List.map_cons]
  rw [dailyNewGo_snd_some tl rest (dictLookup tl d)]
  simp

theorem compute_daily_new_cases_sample : compute_daily_new_cases
    [(⟨3, 11, 21⟩, 15), (⟨3, 10, 21⟩, 10), (⟨3, 12, 21⟩, 22)] =
    [(⟨3, 10, 21⟩, 0), (⟨3, 11, 21⟩, 5), (⟨3, 12, 21⟩, 7)] := by decide

theorem growth_rates_sample : growth_rates [5, 7] = [2 / 5] := by
  norm_num [growth_rates]

theorem strOccurs_of_append_append (a b c : String) : strOccurs (a ++ b ++ c) b :=
  ⟨a, c, rfl⟩

/-- C6 (amended): `compute_daily_new_cases` does not fail on an empty
timeline — it returns the empty mapping, and the empty mapping arises only
from an empty input.  (The claimed `EmptyTimelineError` is not defined
anywhere in the repository, and the loop body of
`compute_daily_new_cases` contains no raise.) -/
theorem C6_empty_timeline_returns_empty (tl : RawTimeline) :
    compute_daily_new_cases tl = [] ↔ tl = [] := by
  constructor
  · intro h
    have hl := congrArg List.length h
    rw [length_compute_daily_new_cases] at hl
    exact List.length_eq_zero.mp hl
  · intro h
    subst h
    rfl

/-- C6 counterexample: on the empty timeline, `compute_daily_new_cases`
returns the empty mapping normally instead of failing with
`EmptyTimelineError` as the claim states. -/
theorem C6_counterexample :
    compute_daily_new_cases ([] : RawTimeline) = [] := rfl

/-- C7 (amended): an empty historical sequence makes
`generate_narrative_report` fail with Python's built-in
`ZeroDivisionError` (from `sum([]) / len([])`), not a dedicated
`EmptyInputError`; an empty forecast sequence does not make it fail at
all (its pandas mean is NaN and a report is still returned). -/
theorem C7_narrative_empty_inputs (daily_cases forecast_values : List ℚ)
    (hdc : daily_cases ≠ []) :
    generate_narrative_report [] forecast_values =
      Except.error PyError.zeroDivisionError ∧
    ∃ s, generate_narrative_report daily_cases [] = Except.ok s := by
  constructor
  · rfl
  · unfold generate_narrative_report
    rw [if_neg fun h => hdc (List.length_eq_zero.mp h)]
    exact ⟨_, rfl⟩

theorem C7_witness :
    generate_narrative_report [] [1, 2] = Except.error PyError.zeroDivisionError ∧
    ∃ s, generate_narrative_report [10] [] = Except.ok s :=
  C7_narrative_empty_inputs [10] [1, 2] (by simp)

/-- C7 counterexample: `narrate([], [1,2])` fails with `ZeroDivisionError`,
not with `EmptyInputError`; and `narrate([10], [])` (empty forecast
sequence) does not fail at all. -/
theorem C7_counterexample :
    generate_narrative_report [] [1, 2] = Except.error PyError.zeroDivisionError ∧
    generate_narrative_report [] [1, 2] ≠ Except.error PyError.emptyInputError ∧
    (generate_narrative_report [10] []).isOk = true := by
  refine ⟨rfl, ?_, rfl⟩
  intro h
  rw [show generate_narrative_report [] [1, 2] =
      Except.error PyError.zeroDivisionError from rfl] at h
  exact PyError.noConfusion (Except.error.inj h)

/-- C10 (amended): `forecast_arima` performs no horizon validation of its
own — it hands the horizon straight to the external library's
`fit`/`forecast` stages, so it returns `InvalidHorizonError` only if one
of those external stages does (and no such exception class exists in the
repository). -/
theorem C10_forecast_arima_no_horizon_check {Model : Type}
    (fit : List ℚ → Int × Int × Int → Except PyError Model)
    (fcst : Model → Int → Except PyError (List ℚ))
    (daily_cases : List ℚ) (forecast_period : Int) (order : Int × Int × Int)
    (hfit : fit daily_cases order ≠ Except.error PyError.invalidHorizonError)
    (hfcst : ∀ m, fcst m forecast_period ≠
      Except.error PyError.invalidHorizonError) :
    forecast_arima fit fcst daily_cases forecast_period order ≠
      Except.error PyError.invalidHorizonError := by
  intro hcontra
  unfold forecast_arima at hcontra
  cases hf : fit daily_cases order with
  | error e =>
    rw [hf] at hcontra
    simp only [bind, Except.bind] at hcontra
    cases hcontra
    exact hfit hf
  | ok m =>
    rw [hf] at hcontra
    simp only [bind, Except.bind] at hcontra
    cases hg : fcst m forecast_period with
    | error e2 =>
      rw [hg] at hcontra
      cases hcontra
      exact hfcst m hg
    | ok f =>
      rw [hg] at hcontra
      exact Except.noConfusion hcontra

theorem C10_witness :
    forecast_arima (fun _ _ => Except.ok ()) (fun _ _ => Except.ok ([] : List ℚ))
      [1, 2, 3] 0 (1, 1, 1) ≠ Except.error PyError.invalidHorizonError :=
  C10_forecast_arima_no_horizon_check _ _ [1, 2, 3] 0 (1, 1, 1)
    (fun h => Except.noConfusion h) (fun _ h => Except.noConfusion h)

/-- C10 counterexample: with horizon `0` (and benign external stages, here
ones that succeed), `forecast_arima` succeeds — it does not fail with
`InvalidHorizonError` as the claim states. -/
theorem C10_counterexample :
    forecast_arima (fun _ _ => Except.ok ()) (fun _ _ => Except.ok ([] : List ℚ))
      [1, 2, 3] 0 (1, 1, 1) = Except.ok ([], ()) := rfl

/-- C9: `compute_doubling_time` returns `ln(2)/rate` for a positive rate
and `+∞` for a non-positive one; `doublingTime(0) = ∞`,
`doublingTime(ln 2) = 1`, and the value is strictly decreasing on positive
rates. -/
theorem C9_doubling_time_spec (r1 r2 r3 : ℝ)
    (h1 : 0 < r1) (h12 : r1 < r2) (h3 : r3 ≤ 0) :
    compute_doubling_time r1 = ((Real.log 2 / r1 : ℝ) : EReal) ∧
    compute_doubling_time r3 = ⊤ ∧
    compute_doubling_time 0 = ⊤ ∧
    compute_doubling_time (Real.log 2) = ((1 : ℝ) : EReal) ∧
    compute_doubling_time r2 < compute_doubling_time r1 := by
  have hlog : 0 < Real.log 2 := Real.log_pos one_lt_two
  have h2 : 0 < r2 := lt_trans h1 h12
  refine ⟨?_, ?_, ?_, ?_, ?_⟩
  · rw [compute_doubling_time, if_pos h1]
  · rw [compute_doubling_time, if_neg (not_lt.mpr h3)]
  · rw [compute_doubling_time, if_neg (lt_irrefl 0)]
  · rw [compute_doubling_time, if_pos hlog, div_self (ne_of_gt hlog)]
  · rw [compute_doubling_time, compute_doubling_time, if_pos h1, if_pos h2]
    exact_mod_cast div_lt_div_of_pos_left hlog h1 h12

theorem C9_witness :
    compute_doubling_time 1 = ((Real.log 2 / 1 : ℝ) : EReal) ∧
    compute_doubling_time (-1) = ⊤ ∧
    compute_doubling_time 0 = ⊤ ∧
    compute_doubling_time (Real.log 2) = ((1 : ℝ) : EReal) ∧
    compute_doubling_time 2 < compute_doubling_time 1 :=
  C9_doubling_time_spec 1 2 (-1) zero_lt_one one_lt_two
    (neg_nonpos.mpr zero_le_one)

theorem growth_rates_eq_spec (daily_cases : List ℚ) :
    growth_rates daily_cases = retainedRatiosSpec daily_cases := by
  induction daily_cases with
  | nil => rfl
  | cons x xs ih =>
    cases xs with
    | nil => rfl
    | cons y rest =>
      by_cases hx : 0 < x <;>
        simp [growth_rates, retainedRatiosSpec, List.filterMap_cons, hx, ih]

theorem growth_rates_nil_of_nonpos (daily_cases : List ℚ)
    (h : ∀ x ∈ daily_cases.dropLast, x ≤ 0) :
    growth_rates daily_cases = [] := by
  induction daily_cases with
  | nil => rfl
  | cons x xs ih =>
    cases xs with
    | nil => rfl
    | cons y rest =>
      have hx : x ≤ 0 := h x (by simp)
      have htail : ∀ z ∈ (y :: rest).dropLast, z ≤ 0 := by
        intro z hz
        exact h z (by simpa using Or.inr hz)
      rw [growth_rates, if_neg (not_lt.mpr hx), List.nil_append, ih htail]

/-- C3: `compute_average_growth_rate` walks consecutive pairs, keeps the
ratio `(curr − prev)/prev` exactly for pairs with a positive predecessor,
and returns the arithmetic mean of the retained ratios — `0` when none
are retained, hence `0` on the empty list and on every list whose
predecessors are all non-positive. -/
theorem C3_growth_rate_spec (daily_cases : List ℚ) :
    compute_average_growth_rate daily_cases =
      (if retainedRatiosSpec daily_cases = [] then 0
       else (retainedRatiosSpec daily_cases).sum /
         ((retainedRatiosSpec daily_cases).length : ℚ)) ∧
    compute_average_growth_rate [] = 0 ∧
    ((∀ x ∈ daily_cases.dropLast, x ≤ 0) →
      compute_average_growth_rate daily_cases = 0) := by
  refine ⟨?_, rfl, ?_⟩
  · rw [compute_average_growth_rate, growth_rates_eq_spec]
    rcases eq_or_ne (retainedRatiosSpec daily_cases) [] with h | h
    · rw [if_pos h, if_pos (by rw [h]; rfl)]
    · rw [if_neg h, if_neg fun hl => h (List.length_eq_zero.mp hl)]
  · intro h
    rw [compute_average_growth_rate, growth_rates_nil_of_nonpos daily_cases h]
    rfl

theorem C3_witness :
    compute_average_growth_rate [0, 0, 0] = 0 :=
  (C3_growth_rate_spec [0, 0, 0]).2.2 (by simp)

theorem classifyTrend_increasing_iff (a f : ℚ) :
    classifyTrend a (some f) = Trend.increasing ↔ a < f := by
  unfold classifyTrend nanLt nanGt
  rcases lt_trichotomy f a with h | h | h
  · simp [h, not_lt.mpr (le_of_lt h)]
  · simp [h, lt_irrefl]
  · simp [h, not_lt.mpr (le_of_lt h)]

theorem classifyTrend_decreasing_iff (a f : ℚ) :
    classifyTrend a (some f) = Trend.decreasing ↔ f < a := by
  unfold classifyTrend nanLt nanGt
  rcases lt_trichotomy f a with h | h | h
  · simp [h]
  · simp [h, lt_irrefl]
  · simp [h, not_lt.mpr (le_of_lt h)]

theorem classifyTrend_stable_iff (a f : ℚ) :
    classifyTrend a (some f) = Trend.stable ↔ f = a := by
  unfold classifyTrend nanLt nanGt
  rcases lt_trichotomy f a with h | h | h
  · simp [h, ne_of_lt h]
  · simp [h, lt_irrefl]
  · simp [h, not_lt.mpr (le_of_lt h), ne_of_gt h]

/-- C5: for non-empty inputs, `generate_narrative_report` classifies the
trend by comparing the forecast mean with the historical mean
(increasing iff strictly greater, decreasing iff strictly smaller, stable
iff exactly equal), and the returned text embeds both rounded averages,
the trend word, and ends with the trend-specific closing remark. -/
theorem C5_narrative_spec (daily_cases forecast_values : List ℚ)
    (hdc : daily_cases ≠ []) (hfv : forecast_values ≠ []) :
    (classifyTrend (pyMean daily_cases) (some (pyMean forecast_values)) =
        Trend.increasing ↔ pyMean daily_cases < pyMean forecast_values) ∧
    (classifyTrend (pyMean daily_cases) (some (pyMean forecast_values)) =
        Trend.decreasing ↔ pyMean forecast_values < pyMean daily_cases) ∧
    (classifyTrend (pyMean daily_cases) (some (pyMean forecast_values)) =
        Trend.stable ↔ pyMean forecast_values = pyMean daily_cases) ∧
    ∃ r, generate_narrative_report daily_cases forecast_values = Except.ok r ∧
      strOccurs r (fmt0f (pyMean daily_cases)) ∧
      strOccurs r (fmt0f (pyMean forecast_values)) ∧
      strOccurs r (trendWord
        (classifyTrend (pyMean daily_cases) (some (pyMean forecast_values)))) ∧
      ∃ p, r = p ++ trendRemark
        (classifyTrend (pyMean daily_cases) (some (pyMean forecast_values))) := by
  refine ⟨classifyTrend_increasing_iff _ _, classifyTrend_decreasing_iff _ _,
    classifyTrend_stable_iff _ _, ?_⟩
  unfold generate_narrative_report
  rw [if_neg fun h => hdc (List.length_eq_zero.mp h)]
  simp only [if_neg fun h => hfv (List.length_eq_zero.mp h)]
  refine ⟨_, rfl, ?_, ?_, ?_, ⟨_, rfl⟩⟩
  · exact ⟨"Based on the historical data, the average daily new cases were approximately ",
      ". The forecast for the upcoming period suggests an average of "
        ++ fmtOpt0f (some (pyMean forecast_values))
        ++ " daily new cases, indicating a "
        ++ trendWord (classifyTrend (pyMean daily_cases)
            (some (pyMean forecast_values)))
        ++ " trend. "
        ++ trendRemark (classifyTrend (pyMean daily_cases)
            (some (pyMean forecast_values))),
      by simp [reportBody, String.append_assoc]⟩
  · exact ⟨"Based on the historical data, the average daily new cases were approximately "
        ++ fmt0f (pyMean daily_cases)
        ++ ". The forecast for the upcoming period suggests an average of ",
      " daily new cases, indicating a "
        ++ trendWord (classifyTrend (pyMean daily_cases)
            (some (pyMean forecast_values)))
        ++ " trend. "
        ++ trendRemark (classifyTrend (pyMean daily_cases)
            (some (pyMean forecast_values))),
      by simp [reportBody, fmtOpt0f, String.append_assoc]⟩
  · exact ⟨"Based on the historical data, the average daily new cases were approximately "
        ++ fmt0f (pyMean daily_cases)
        ++ ". The forecast for the upcoming period suggests an average of "
        ++ fmtOpt0f (some (pyMean forecast_values))
        ++ " daily new cases, indicating a ",
      " trend. "
        ++ trendRemark (classifyTrend (pyMean daily_cases)
            (some (pyMean forecast_values))),
      by simp [reportBody, String.append_assoc]⟩

theorem C5_witness :
    ∃ r, generate_narrative_report [10, 10, 10] [20, 20, 20] = Except.ok r ∧
      strOccurs r (fmt0f (pyMean [10, 10, 10])) ∧
      strOccurs r (fmt0f (pyMean [20, 20, 20])) ∧
      strOccurs r (trendWord
        (classifyTrend (pyMean [10, 10, 10]) (some (pyMean [20, 20, 20])))) ∧
      ∃ p, r = p ++ trendRemark
        (classifyTrend (pyMean [10, 10, 10]) (some (pyMean [20, 20, 20]))) :=
  (C5_narrative_spec [10, 10, 10] [20, 20, 20] (by simp) (by simp)).2.2.2

theorem cmaLoop_neg (data_list : List ℚ) (window : Int) (hw : window < 0) :
    ∀ l : List ℕ, cmaLoop data_list window l =
      Except.ok (l.map fun _ => some 0) := by
  intro l
  induction l with
  | nil => rfl
  | cons i is ih =>
    have hcond : ¬ ((i : Int) < window - 1) := by omega
    have hpast : (data_list.take (i + 1)).length ≤
        ((i : Int) - window + 1).toNat := by
      rw [List.length_take]
      omega
    rw [cmaLoop]
    rw [if_neg hcond, if_neg (by omega : ¬ window = 0)]
    rw [List.drop_eq_nil_of_le hpast]
    simp only [List.sum_nil, zero_div]
    rw [ih]
    rfl

theorem cmaLoop_all_none (data_list : List ℚ) (window : Int) :
    ∀ l : List ℕ, (∀ i ∈ l, (i : Int) < window - 1) →
      cmaLoop data_list window l = Except.ok (l.map fun _ => none) := by
  intro l
  induction l with
  | nil => intro _; rfl
  | cons i is ih =>
    intro h
    rw [cmaLoop, if_pos (h i (by simp))]
    rw [ih fun j hj => h j (by simp [hj])]
    rfl

/-- C8 (amended): `compute_moving_average` has no `InvalidWindowError`
path.  A window of `0` on a non-empty input fails with Python's built-in
`ZeroDivisionError` (from `sum(...) / 0`); a negative window does not
fail at all — every slice is empty, so every entry is `0 / window = 0`;
and a window larger than the input length is tolerated, returning an
all-`None` list of the input's length. -/
theorem C8_moving_average_window_policy (data_list : List ℚ) (window : Int) :
    (data_list ≠ [] → compute_moving_average data_list 0 =
      Except.error PyError.zeroDivisionError) ∧
    (window < 0 → compute_moving_average data_list window =
      Except.ok (data_list.map fun _ => some 0)) ∧
    ((data_list.length : Int) < window → compute_moving_average data_list window =
      Except.ok (data_list.map fun _ => none)) := by
  refine ⟨?_, ?_, ?_⟩
  · intro hne
    obtain ⟨x, xs, hx⟩ := List.exists_cons_of_ne_nil hne
    unfold compute_moving_average
    rw [hx]
    simp only [List.length_cons, List.range_succ_eq_map]
    rw [cmaLoop]
    norm_num
    rfl
  · intro hw
    unfold compute_moving_average
    rw [cmaLoop_neg data_list window hw]
    congr 1
    rw [List.map_const', List.map_const', List.length_range]
  · intro hw
    unfold compute_moving_average
    rw [cmaLoop_all_none data_list window (List.range data_list.length)
      fun i hi => by
        have := List.mem_range.mp hi
        omega]
    congr 1
    rw [List.map_const', List.map_const', List.length_range]

theorem C8_witness :
    compute_moving_average [(1 : ℚ), 2] 0 =
      Except.error PyError.zeroDivisionError ∧
    compute_moving_average [(1 : ℚ), 2] (-1) =
      Except.ok ([(1 : ℚ), 2].map fun _ => some 0) ∧
    compute_moving_average [(1 : ℚ), 2] 3 =
      Except.ok ([(1 : ℚ), 2].map fun _ => none) :=
  ⟨(C8_moving_average_window_policy [(1 : ℚ), 2] 0).1 (by simp),
   (C8_moving_average_window_policy [(1 : ℚ), 2] (-1)).2.1 (by decide),
   (C8_moving_average_window_policy [(1 : ℚ), 2] 3).2.2 (by decide)⟩

/-- C8 counterexample: the window `-1` is `≤ 0` yet
`compute_moving_average` does not fail — it returns a list of zeros (each
slice is empty, and `sum([]) / -1 == -0.0 == 0.0`). -/
theorem C8_counterexample :
    compute_moving_average [(1 : ℚ), 2] (-1) = Except.ok [some 0, some 0] := by
  have h := cmaLoop_neg [(1 : ℚ), 2] (-1) (by decide) (List.range 2)
  unfold compute_moving_average
  simpa using h

theorem cmaLoop_ok (data_list : List ℚ) (window : Int) (hw : window ≠ 0)
    (l : List ℕ) :
    cmaLoop data_list window l = Except.ok (l.map fun (i : ℕ) =>
      if (i : Int) < window - 1 then none
      else some ((((data_list.take (i + 1)).drop
        (((i : Int) - window + 1).toNat)).sum) / (window : ℚ))) := by
  induction l with
  | nil => rfl
  | cons i is ih =>
    by_cases hc : (i : Int) < window - 1 <;>
      simp [cmaLoop, hc, hw, ih]

theorem sum_slice_eq (l : List ℚ) (a k : ℕ) (h : a + k ≤ l.length) :
    ((l.take (a + k)).drop a).sum = ∑ j ∈ Finset.range k, l.getD (a + j) 0 := by
  induction k with
  | zero =>
    rw [Finset.range_zero, Finset.sum_empty, Nat.add_zero,
      List.drop_eq_nil_of_le (by rw [List.length_take]; omega)]
    rfl
  | succ k ih =>
    have h' : a + k ≤ l.length := by omega
    have hlt : a + k < l.length := by omega
    rw [show a + (k + 1) = (a + k) + 1 by omega, List.take_succ,
      List.drop_append_of_le_length (by rw [List.length_take]; omega),
      List.sum_append, ih h', Finset.sum_range_succ]
    congr 1
    rw [List.getElem?_eq_getElem hlt]
    simp [List.getD_eq_getElem?_getD, List.getElem?_eq_getElem hlt]

theorem compute_moving_average_eq_spec (values : List ℚ) (w : ℕ) (hw : 1 ≤ w) :
    compute_moving_average values (w : Int) =
      Except.ok (movingAverageSpec values w) := by
  unfold compute_moving_average
  rw [cmaLoop_ok values (w : Int) (by omega) (List.range values.length)]
  congr 1
  unfold movingAverageSpec
  apply List.map_congr_left
  intro i hi
  have hi' : i < values.length := List.mem_range.mp hi
  by_cases hc : i + 1 < w
  · rw [if_pos (by omega : (i : Int) < (w : Int) - 1), if_pos hc]
  · rw [if_neg (by omega : ¬ (i : Int) < (w : Int) - 1), if_neg hc]
    rw [show (((i : Int) - (w : Int) + 1).toNat) = i + 1 - w by omega]
    rw [show values.take (i + 1) = values.take ((i + 1 - w) + w) by
      rw [show (i + 1 - w) + w = i + 1 by omega]]
    rw [sum_slice_eq values (i + 1 - w) w (by omega)]
    norm_cast

theorem map_range_getD (l : List ℚ) :
    (List.range l.length).map (fun i => l.getD i 0) = l := by
  induction l with
  | nil => rfl
  | cons x xs ih =>
    rw [List.length_cons, List.range_succ_eq_map, List.map_cons, List.map_map]
    simp only [List.getD_cons_zero, Function.comp_def, List.getD_cons_succ]
    rw [ih]

theorem map_range_some_getD (l : List ℚ) :
    (List.range l.length).map (fun i => some (l.getD i 0)) =
      l.map fun x => some x := by
  have h1 : (List.range l.length).map (fun i => some (l.getD i 0)) =
      ((List.range l.length).map fun i => l.getD i 0).map fun x => some x := by
    rw [List.map_map]
    rfl
  rw [h1, map_range_getD]

/-- C2: for a window `w ≥ 1` applied to a list longer than `w`,
`compute_moving_average` succeeds and returns exactly the design
document's moving average — same length as the input, `None` for the
first `w − 1` indices, and at every index `i ≥ w − 1` the exact
arithmetic mean of the `w` values ending at `i`; for `w = 1` every entry
is the corresponding input value. -/
theorem C2_moving_average_spec (values : List ℚ) (w : ℕ)
    (hw : 1 ≤ w) (hlen : w < values.length) :
    compute_moving_average values (w : Int) =
      Except.ok (movingAverageSpec values w) ∧
    (movingAverageSpec values w).length = values.length ∧
    (w = 1 → compute_moving_average values 1 =
      Except.ok (values.map fun x => some x)) := by
  refine ⟨compute_moving_average_eq_spec values w hw, ?_, ?_⟩
  · unfold movingAverageSpec
    rw [List.length_map, List.length_range]
  · intro hw1
    subst hw1
    rw [show (1 : Int) = ((1 : ℕ) : Int) from rfl,
      compute_moving_average_eq_spec values 1 le_rfl]
    congr 1
    unfold movingAverageSpec
    rw [List.map_congr_left (fun i hi => by
      rw [if_neg (by omega : ¬ i + 1 < 1), Finset.sum_range_one,
        show i + 1 - 1 + 0 = i by omega, Nat.cast_one, div_one] :
      ∀ i ∈ List.range values.length, _ = some (values.getD i 0))]
    exact map_range_some_getD values

theorem C2_witness :
    compute_moving_average [(1 : ℚ), 2, 3, 4] ((2 : ℕ) : Int) =
      Except.ok (movingAverageSpec [(1 : ℚ), 2, 3, 4] 2) ∧
    (movingAverageSpec [(1 : ℚ), 2, 3, 4] 2).length =
      [(1 : ℚ), 2, 3, 4].length ∧
    (2 = 1 → compute_moving_average [(1 : ℚ), 2, 3, 4] 1 =
      Except.ok ([(1 : ℚ), 2, 3, 4].map fun x => some x)) :=
  C2_moving_average_spec [(1 : ℚ), 2, 3, 4] 2 (by decide) (by decide)

/-- C1: for a non-empty timeline with distinct dates,
`compute_daily_new_cases` returns a mapping over exactly the input's
dates (a permutation of them, in strictly ascending parsed-date order),
of the same length as the input, whose values are a leading `0` followed
by, for each later date, that date's cumulative count minus the previous
date's cumulative count (differences kept as-is, not clamped). -/
theorem C1_daily_new_cases_spec (tl : RawTimeline) (hne : tl ≠ [])
    (hnd : (tl.map Prod.fst).Nodup) :
    ((compute_daily_new_cases tl).map Prod.fst).Perm (tl.map Prod.fst) ∧
    List.Pairwise dateLt ((compute_daily_new_cases tl).map Prod.fst) ∧
    (compute_daily_new_cases tl).length = tl.length ∧
    (compute_daily_new_cases tl).map Prod.snd =
      0 :: List.zipWith (fun cur pr => cur - pr)
        (((compute_daily_new_cases tl).map fun p => dictLookup tl p.1).tail)
        ((compute_daily_new_cases tl).map fun p => dictLookup tl p.1) := by
  have hfst := compute_daily_new_cases_map_fst tl
  have hperm : (sortedDates tl).Perm (tl.map Prod.fst) :=
    List.perm_insertionSort dateLe (tl.map Prod.fst)
  refine ⟨by rw [hfst]; exact hperm, ?_, length_compute_daily_new_cases tl,
    compute_daily_new_cases_map_snd tl hne⟩
  rw [hfst]
  have hsorted : List.Pairwise dateLe (sortedDates tl) :=
    List.sorted_insertionSort dateLe (tl.map Prod.fst)
  have hnodup : (sortedDates tl).Nodup := hperm.symm.nodup hnd
  exact (hsorted.and hnodup).imp fun h => dateLt_of_dateLe_of_ne h.1 h.2

theorem C1_witness :
    ((compute_daily_new_cases sampleTimeline).map Prod.fst).Perm
      (sampleTimeline.map Prod.fst) ∧
    List.Pairwise dateLt
      ((compute_daily_new_cases sampleTimeline).map Prod.fst) ∧
    (compute_daily_new_cases sampleTimeline).length = sampleTimeline.length ∧
    (compute_daily_new_cases sampleTimeline).map Prod.snd =
      0 :: List.zipWith (fun cur pr => cur - pr)
        (((compute_daily_new_cases sampleTimeline).map fun p =>
          dictLookup sampleTimeline p.1).tail)
        ((compute_daily_new_cases sampleTimeline).map fun p =>
          dictLookup sampleTimeline p.1) :=
  C1_daily_new_cases_spec sampleTimeline (by simp [sampleTimeline]) (by decide)

theorem zipWith_sub_telescope :
    ∀ c : List Int, c ≠ [] →
      (List.zipWith (fun cur pr => cur - pr) c.tail c).sum =
        c.getLast?.getD 0 - c.head?.getD 0
  | [], h => absurd rfl h
  | [x], _ => by simp
  | x :: y :: r, _ => by
    have ih := zipWith_sub_telescope (y :: r) (by simp)
    simp only [List.tail_cons] at ih ⊢
    rw [List.zipWith_cons_cons, List.sum_cons, ih, List.getLast?_cons_cons]
    simp only [List.head?_cons]
    simp only [Option.getD_some]
    omega

/-- C4: for a timeline of length at least 2 with distinct dates, the
deltas produced by `compute_daily_new_cases`, excluding the first
placeholder entry, sum to the last cumulative count minus the first
cumulative count in date order. -/
theorem C4_deltas_telescope (tl : RawTimeline) (hlen : 2 ≤ tl.length)
    (_hnd : (tl.map Prod.fst).Nodup) :
    (((compute_daily_new_cases tl).map Prod.snd).tail).sum =
      ((compute_daily_new_cases tl).map fun p =>
        dictLookup tl p.1).getLast?.getD 0 -
      ((compute_daily_new_cases tl).map fun p =>
        dictLookup tl p.1).head?.getD 0 := by
  have hne : tl ≠ [] := by
    intro h
    rw [h] at hlen
    simp at hlen
  rw [compute_daily_new_cases_map_snd tl hne]
  simp only [List.tail_cons]
  apply zipWith_sub_telescope
  intro h
  have hl := congrArg List.length h
  rw [List.length_map, length_compute_daily_new_cases, List.length_nil] at hl
  omega

theorem C4_witness :
    (((compute_daily_new_cases sampleTimeline).map Prod.snd).tail).sum =
      ((compute_daily_new_cases sampleTimeline).map fun p =>
        dictLookup sampleTimeline p.1).getLast?.getD 0 -
      ((compute_daily_new_cases sampleTimeline).map fun p =>
        dictLookup sampleTimeline p.1).head?.getD 0 :=
  C4_deltas_telescope sampleTimeline (by decide) (by decide)
